import Mathlib

/-!
Verification development for the Compliance Monitoring & Analytics Engine of a
special-education case-management application. The definitions below are a
shallow embedding of the Convex backend functions in `convex/ieps.ts`,
`convex/analytics.ts` and `convex/notifications.ts`, over the data model of
`convex/schema.ts`.

Modelling conventions:
- Document ids (`_id`) are modelled as `String` fields named `id`; for the
  notifications table, where single-row `get`/`patch` by id is needed, rows
  are addressed by their list index (the store is the append-ordered list).
- `_creationTime` is modelled as an `Int` field `creationTime` (ms).
- `annualReviewDate` is a `String`, exactly as in the schema; the JavaScript
  `new Date(s).getTime()` call is modelled by an explicit parse parameter
  `pd : String → Option Int`, where `none` models `NaN` (every numeric
  comparison against `NaN` is false in JavaScript, which the embedding
  reproduces by emitting/counting nothing in that case).
- `Math.round(num / den * 100)` on non-negative operands is `⌊x + 1/2⌋`,
  i.e. `(200 * num + den) / (2 * den)` in natural division.
- Authentication (`getAuthUserId`) is an `Option String` argument; throwing
  `new Error(msg)` is `Except.error msg`.
-/

/-- Milliseconds in a day, `24 * 60 * 60 * 1000`. -/
def dayMs : Int := 24 * 60 * 60 * 1000

/-- Model of `Math.round((num / den) * 100)` for non-negative integers:
`⌊100 * num / den + 1 / 2⌋` computed in natural arithmetic. -/
def jsRound100 (num den : Nat) : Nat := (200 * num + den) / (2 * den)

/-- `status` field of the `ieps` table. -/
inductive IEPStatus where
  | draft
  | in_review
  | approved
  | active
  | expired
  deriving DecidableEq, Repr

/-- One embedded goal of an IEP (`content.goals` element in the schema).
`progress` is a number with no range invariant enforced upstream. -/
structure Goal where
  id : String
  area : String
  goal : String
  objectives : List String
  measurableOutcomes : String
  timeline : String
  responsibleParty : String
  progress : Int
  deriving DecidableEq, Repr

/-- One embedded service of an IEP (`content.services` element). -/
structure Service where
  type : String
  frequency : String
  duration : String
  location : String
  provider : String
  deriving DecidableEq, Repr

/-- The `content` object of an `ieps` row. -/
structure IEPContent where
  presentLevels : String
  goals : List Goal
  services : List Service
  accommodations : List String
  modifications : List String
  transitionPlanning : Option String
  collaborativeContent : Option String
  deriving DecidableEq, Repr

/-- One row of the `ieps` table. `id` models `_id`, `creationTime` models
`_creationTime`; the remaining fields follow the schema (the `approvals`
array is omitted: no embedded function reads it). -/
structure IEP where
  id : String
  studentName : String
  studentId : String
  grade : String
  dateOfBirth : String
  disability : String
  status : IEPStatus
  meetingDate : String
  annualReviewDate : String
  createdBy : String
  lastModifiedBy : String
  content : IEPContent
  teamMembers : List String
  creationTime : Int
  deriving DecidableEq, Repr

/-- `role` field of the `userProfiles` table. -/
inductive ProfileRole where
  | special_educator
  | general_educator
  | service_provider
  | administrator
  | parent
  | student
  deriving DecidableEq, Repr

/-- One row of the `userProfiles` table. -/
structure UserProfile where
  userId : String
  role : ProfileRole
  firstName : String
  lastName : String
  email : String
  organization : Option String
  specialization : Option String
  deriving DecidableEq, Repr

/-- One row of the `progressData` table (a progress observation for one goal
of one IEP). `creationTime` models `_creationTime`. -/
structure ProgressData where
  iepId : String
  goalId : String
  dataPoint : Int
  date : String
  notes : Option String
  recordedBy : String
  interventionUsed : Option String
  creationTime : Int
  deriving DecidableEq, Repr

/-- `type` field of the `notifications` table. -/
inductive NotificationType where
  | iep_due
  | meeting_reminder
  | goal_update
  | team_invitation
  | compliance_alert
  | system_update
  deriving DecidableEq, Repr

/-- `priority` field of the `notifications` table. -/
inductive NotifPriority where
  | low
  | medium
  | high
  deriving DecidableEq, Repr

/-- One row of the `notifications` table. Rows are addressed by their index
in the append-ordered store list. -/
structure Notification where
  userId : String
  type : NotificationType
  title : String
  message : String
  priority : NotifPriority
  read : Bool
  readAt : Option Int
  relatedId : Option String
  actionUrl : Option String
  deriving DecidableEq, Repr

/-- `ieps.ts` `getUserIEPs`: unauthenticated callers get `[]`; otherwise the
query uses the `by_created_by` index, i.e. returns exactly the rows whose
`createdBy` equals the caller. -/
def getUserIEPs (auth : Option String) (ieps : List IEP) : List IEP :=
  match auth with
  | none => []
  | some userId => ieps.filter (fun iep => decide (iep.createdBy = userId))

/-- The owner-or-team-member access filter as written inline in
`analytics.ts` (`getIEPAnalytics`, `calculateTrends`) and `notifications.ts`
(`checkComplianceAlerts`):
`iep.createdBy === userId || iep.teamMembers.includes(userId)`. -/
def accessibleIEPs (userId : String) (ieps : List IEP) : List IEP :=
  ieps.filter (fun iep => decide (iep.createdBy = userId ∨ userId ∈ iep.teamMembers))

/-- `ieps.ts` `getIEP`: single-record fetch with the owner-or-team access
check. -/
def getIEP (auth : Option String) (ieps : List IEP) (iepId : String) :
    Except String IEP :=
  match auth with
  | none => Except.error "Not authenticated"
  | some userId =>
    match ieps.find? (fun iep => decide (iep.id = iepId)) with
    | none => Except.error "IEP not found"
    | some iep =>
      if iep.createdBy = userId ∨ userId ∈ iep.teamMembers then Except.ok iep
      else Except.error "Access denied"

/-- `analytics.ts` time-range resolution: `week`/`month`/`quarter` map to
7/30/90 days, anything else (including an absent argument) to 365 days. -/
def timeRangeMsFor (timeRange : Option String) : Int :=
  if timeRange = some "week" then 7 * dayMs
  else if timeRange = some "month" then 30 * dayMs
  else if timeRange = some "quarter" then 90 * dayMs
  else 365 * dayMs

/-- String key a status contributes to the `statusCounts` dictionary. -/
def statusKey : IEPStatus → String
  | IEPStatus.draft => "draft"
  | IEPStatus.in_review => "in_review"
  | IEPStatus.approved => "approved"
  | IEPStatus.active => "active"
  | IEPStatus.expired => "expired"

/-- Distinct keys of a list in first-occurrence order — the iteration order
of `Object.entries` over a dictionary built by `reduce` with non-numeric
string keys. -/
def distinctFirst (l : List String) : List String :=
  l.foldl (fun acc k => if k ∈ acc then acc else acc ++ [k]) []

/-- Accumulator of the goal-metric `forEach` loops in `getIEPAnalytics`. -/
structure GoalTally where
  totalGoals : Nat
  completedGoals : Nat
  inProgressGoals : Nat
  deriving DecidableEq, Repr

/-- Body of the inner goal loop: always increment `totalGoals`; then
`if (goal.progress >= 100) completedGoals++ else if (goal.progress > 0)
inProgressGoals++`. -/
def tallyGoal (acc : GoalTally) (g : Goal) : GoalTally :=
  let acc := { acc with totalGoals := acc.totalGoals + 1 }
  if g.progress ≥ 100 then { acc with completedGoals := acc.completedGoals + 1 }
  else if g.progress > 0 then { acc with inProgressGoals := acc.inProgressGoals + 1 }
  else acc

/-- The nested `forEach` over the filtered cohort's goals. -/
def tallyGoals (cohort : List IEP) : GoalTally :=
  cohort.foldl (fun acc iep => iep.content.goals.foldl tallyGoal acc) ⟨0, 0, 0⟩

/-- `goalCompletionRate`: `Math.round(completed / total * 100)` guarded to 0
when the cohort has no goals. -/
def goalCompletionRateOf (g : GoalTally) : Nat :=
  if g.totalGoals > 0 then jsRound100 g.completedGoals g.totalGoals else 0

/-- One entry of a status/disability/grade distribution: key, count, and
`Math.round(count / total * 100)`. -/
structure DistEntry where
  key : String
  count : Nat
  percentage : Nat
  deriving DecidableEq, Repr

/-- One entry of the service distribution (no percentage in the source). -/
structure ServiceEntry where
  service : String
  count : Nat
  deriving DecidableEq, Repr

/-- `Object.entries` over a count dictionary built from `keys`, mapped to
distribution entries with percentages over `total`. -/
def distributionOf (keys : List String) (total : Nat) : List DistEntry :=
  (distinctFirst keys).map (fun k =>
    let c := keys.count k
    { key := k, count := c, percentage := jsRound100 c total })

/-- The flattened `service.type` tally of `getIEPAnalytics`. -/
def serviceDistributionOf (cohort : List IEP) : List ServiceEntry :=
  let keys := (cohort.map (fun iep => iep.content.services.map (fun s => s.type))).flatten
  (distinctFirst keys).map (fun k => { service := k, count := keys.count k })

/-- `upcomingReviews`: records whose parsed `annualReviewDate` satisfies
`reviewDate <= now + 30d && reviewDate >= now` (no status requirement; an
unparsable date — `NaN` — fails both comparisons). -/
def upcomingReviewsCount (pd : String → Option Int) (now : Int)
    (cohort : List IEP) : Nat :=
  (cohort.filter (fun iep =>
    match pd iep.annualReviewDate with
    | none => false
    | some reviewDate => decide (reviewDate ≤ now + 30 * dayMs ∧ reviewDate ≥ now))).length

/-- `overdueReviews`: records with `reviewDate < now && status === "active"`. -/
def overdueReviewsCount (pd : String → Option Int) (now : Int)
    (cohort : List IEP) : Nat :=
  (cohort.filter (fun iep =>
    match pd iep.annualReviewDate with
    | none => false
    | some reviewDate => decide (reviewDate < now ∧ iep.status = IEPStatus.active))).length

/-- The `compliance` object of the analytics result. -/
structure ComplianceSummary where
  upcomingReviews : Nat
  overdueReviews : Nat
  complianceRate : Nat
  deriving DecidableEq, Repr

/-- The compliance block of `getIEPAnalytics`: the two counts above, and
`complianceRate = round((total - overdue) / total * 100)` guarded to `100`
on an empty cohort. -/
def complianceOf (pd : String → Option Int) (now : Int)
    (cohort : List IEP) : ComplianceSummary :=
  let overdue := overdueReviewsCount pd now cohort
  { upcomingReviews := upcomingReviewsCount pd now cohort
    overdueReviews := overdue
    complianceRate :=
      if cohort.length > 0 then jsRound100 (cohort.length - overdue) cohort.length
      else 100 }

/-- One trend bucket. `date` keeps the raw `periodStart` timestamp (the
source formats it to an ISO day string for display). -/
structure TrendEntry where
  period : Nat
  date : Int
  iepsCreated : Nat
  activeIEPs : Nat
  deriving DecidableEq, Repr

/-- Body of the `calculateTrends` loop for one period: range-scan the table
on `periodStart <= _creationTime < periodEnd`, then apply the access filter,
then count (total and `status === "active"`). -/
def trendBucket (ieps : List IEP) (userId : String)
    (periodStart periodEnd : Int) (i : Nat) : TrendEntry :=
  let allPeriodIEPs := ieps.filter (fun iep =>
    decide (periodStart ≤ iep.creationTime ∧ iep.creationTime < periodEnd))
  let periodIEPs := allPeriodIEPs.filter (fun iep =>
    decide (iep.createdBy = userId ∨ userId ∈ iep.teamMembers))
  { period := i + 1
    date := periodStart
    iepsCreated := periodIEPs.length
    activeIEPs := (periodIEPs.filter (fun iep =>
      decide (iep.status = IEPStatus.active))).length }

/-- `calculateTrends`: 6 periods of length `timeRangeMs / 6`, period `i`
(0-based) spanning `[now - (6-i)*L, now - (6-i-1)*L)`. For every range label
the source produces, `timeRangeMs` is divisible by 6, so integer division
models the JavaScript division exactly there. -/
def calculateTrends (ieps : List IEP) (userId : String)
    (timeRangeMs : Int) (now : Int) : List TrendEntry :=
  let periodLength := timeRangeMs / 6
  (List.range 6).map (fun (i : Nat) =>
    trendBucket ieps userId
      (now - ((6 : Int) - (i : Int)) * periodLength)
      (now - ((6 : Int) - (i : Int) - 1) * periodLength) i)

/-- The `overview` object of the analytics result. -/
structure AnalyticsOverview where
  totalIEPs : Nat
  activeIEPs : Nat
  draftIEPs : Nat
  inReviewIEPs : Nat
  totalGoals : Nat
  completedGoals : Nat
  inProgressGoals : Nat
  goalCompletionRate : Nat
  deriving DecidableEq, Repr

/-- The full `getIEPAnalytics` result. -/
structure Analytics where
  overview : AnalyticsOverview
  statusDistribution : List DistEntry
  disabilityDistribution : List DistEntry
  gradeDistribution : List DistEntry
  serviceDistribution : List ServiceEntry
  compliance : ComplianceSummary
  trends : List TrendEntry
  deriving DecidableEq, Repr

/-- `analytics.ts` `getIEPAnalytics`: authentication gate, profile-existence
gate, owner-or-team access filter, `creationTime >= now - timeRangeMs`
window, then the closed-form passes of §4.2 and the trend buckets. -/
def getIEPAnalytics (pd : String → Option Int) (auth : Option String)
    (profiles : List UserProfile) (ieps : List IEP) (now : Int)
    (timeRange : Option String) : Except String Analytics :=
  match auth with
  | none => Except.error "Not authenticated"
  | some userId =>
    match profiles.find? (fun p => decide (p.userId = userId)) with
    | none => Except.error "User profile not found"
    | some _ =>
      let userIEPs := accessibleIEPs userId ieps
      let timeRangeMs := timeRangeMsFor timeRange
      let startTime := now - timeRangeMs
      let filteredIEPs := userIEPs.filter (fun iep =>
        decide (iep.creationTime ≥ startTime))
      let total := filteredIEPs.length
      let g := tallyGoals filteredIEPs
      Except.ok
        { overview :=
            { totalIEPs := total
              activeIEPs := filteredIEPs.countP (fun iep =>
                decide (iep.status = IEPStatus.active))
              draftIEPs := filteredIEPs.countP (fun iep =>
                decide (iep.status = IEPStatus.draft))
              inReviewIEPs := filteredIEPs.countP (fun iep =>
                decide (iep.status = IEPStatus.in_review))
              totalGoals := g.totalGoals
              completedGoals := g.completedGoals
              inProgressGoals := g.inProgressGoals
              goalCompletionRate := goalCompletionRateOf g }
          statusDistribution :=
            distributionOf (filteredIEPs.map (fun iep => statusKey iep.status)) total
          disabilityDistribution :=
            distributionOf (filteredIEPs.map (fun iep => iep.disability)) total
          gradeDistribution :=
            distributionOf (filteredIEPs.map (fun iep => iep.grade)) total
          serviceDistribution := serviceDistributionOf filteredIEPs
          compliance := complianceOf pd now filteredIEPs
          trends := calculateTrends ieps userId timeRangeMs now }

/-- `notifications.ts` `createNotification` (internal mutation): the row it
inserts — `read: false`, no `readAt`. Writing it to the store is a plain
append with no existence check against prior rows. -/
def createNotification (userId : String) (t : NotificationType)
    (title message : String) (priority : NotifPriority)
    (relatedId : Option String) (actionUrl : Option String) : Notification :=
  { userId := userId
    type := t
    title := title
    message := message
    priority := priority
    read := false
    readAt := none
    relatedId := relatedId
    actionUrl := actionUrl }

/-- `notifications.ts` `markNotificationRead`: auth gate, `db.get`, then
`if (!notification || notification.userId !== userId) throw`; on success a
patch sets `read := true, readAt := now`. A thrown error produces no write:
the store is unchanged (the embedding returns a new store only in `ok`). -/
def markNotificationRead (auth : Option String) (db : List Notification)
    (notificationId : Nat) (now : Int) : Except String (List Notification) :=
  match auth with
  | none => Except.error "Not authenticated"
  | some userId =>
    match db[notificationId]? with
    | none => Except.error "Notification not found or access denied"
    | some n =>
      if n.userId = userId then
        Except.ok (db.set notificationId { n with read := true, readAt := some now })
      else Except.error "Notification not found or access denied"

/-- The review-deadline branch chain of `checkComplianceAlerts` for one
record: `if (reviewDate < now && status === "active") … else if (reviewDate
<= now + 7d && reviewDate >= now) … else if (reviewDate <= now + 30d &&
reviewDate >= now + 7d) …`. An unparsable date (`NaN`) fails every
comparison and emits nothing. -/
def reviewAlerts (pd : String → Option Int) (now : Int) (userId : String)
    (iep : IEP) : List Notification :=
  match pd iep.annualReviewDate with
  | none => []
  | some reviewDate =>
    if reviewDate < now ∧ iep.status = IEPStatus.active then
      [createNotification userId NotificationType.compliance_alert
        "Overdue IEP Review"
        ("IEP for " ++ iep.studentName ++ " is overdue for annual review.")
        NotifPriority.high (some iep.id) none]
    else if reviewDate ≤ now + 7 * dayMs ∧ reviewDate ≥ now then
      [createNotification userId NotificationType.iep_due
        "IEP Review Due Soon"
        ("IEP for " ++ iep.studentName ++ " is due for review within 7 days.")
        NotifPriority.high (some iep.id) none]
    else if reviewDate ≤ now + 30 * dayMs ∧ reviewDate ≥ now + 7 * dayMs then
      [createNotification userId NotificationType.iep_due
        "Upcoming IEP Review"
        ("IEP for " ++ iep.studentName ++ " is due for review within 30 days.")
        NotifPriority.medium (some iep.id) none]
    else []

/-- The stale-goal loop of `checkComplianceAlerts` for one record: collect
the `goalId`s of `progressData` rows for this IEP created within the last
30 days, then emit one `goal_update` alert per goal not among them. -/
def goalAlerts (now : Int) (userId : String) (progressData : List ProgressData)
    (iep : IEP) : List Notification :=
  let recentGoalIds := (progressData.filter (fun p =>
    decide (p.iepId = iep.id ∧ p.creationTime ≥ now - 30 * dayMs))).map
      (fun p => p.goalId)
  (iep.content.goals.filter (fun g => decide (¬ g.id ∈ recentGoalIds))).map
    (fun g =>
      createNotification userId NotificationType.goal_update
        "Goal Progress Update Needed"
        ("Goal \"" ++ g.area ++ "\" for " ++ iep.studentName ++
          " hasn\x27t been updated in 30 days.")
        NotifPriority.medium (some iep.id) none)

/-- Everything `checkComplianceAlerts` appends for one record: the (at most
one) review-deadline alert followed by the stale-goal alerts. -/
def scanIEP (pd : String → Option Int) (now : Int) (userId : String)
    (progressData : List ProgressData) (iep : IEP) : List Notification :=
  reviewAlerts pd now userId iep ++ goalAlerts now userId progressData iep

/-- The store append performed by one `checkComplianceAlerts` run for actor
`userId`: the alerts of every accessible record, in cohort order. -/
def runComplianceScan (pd : String → Option Int) (ieps : List IEP)
    (progressData : List ProgressData) (db : List Notification)
    (now : Int) (userId : String) : List Notification :=
  db ++ ((accessibleIEPs userId ieps).map (scanIEP pd now userId progressData)).flatten

/-- `notifications.ts` `checkComplianceAlerts`: auth gate, owner-or-team
access filter, then per record the review-deadline chain and the stale-goal
loop, every alert written via `createNotification` with no dedup check and
addressed to the invoking actor. -/
def checkComplianceAlerts (pd : String → Option Int) (ieps : List IEP)
    (progressData : List ProgressData) (db : List Notification)
    (now : Int) (auth : Option String) : Except String (List Notification) :=
  match auth with
  | none => Except.error "Not authenticated"
  | some userId => Except.ok (runComplianceScan pd ieps progressData db now userId)

/-- Number of `compliance_alert` rows in the store whose `relatedId` is the
given record id. -/
def complianceAlertCountFor (db : List Notification) (iepId : String) : Nat :=
  db.countP (fun n =>
    decide (n.type = NotificationType.compliance_alert ∧ n.relatedId = some iepId))

/-- "Now" used by the concrete test fixtures below (day 1000). -/
def scNow : Int := 1000 * dayMs

/-- Date parser used by the concrete fixtures: a three-entry lookup table
("yesterday", "in3days", "farFuture"); anything else is unparsable. -/
def scParse : String → Option Int := fun s =>
  if s = "yesterday" then some (999 * dayMs)
  else if s = "in3days" then some (1003 * dayMs)
  else if s = "farFuture" then some (1100 * dayMs)
  else none

/-- Template record for the concrete fixtures: a `draft` owned by `u1`,
review far in the future, created inside the one-year window before
`scNow`. -/
def baseIEP : IEP :=
  { id := "iep0"
    studentName := "S0"
    studentId := "sid0"
    grade := "3"
    dateOfBirth := "2015-01-01"
    disability := "SLD"
    status := IEPStatus.draft
    meetingDate := "m"
    annualReviewDate := "farFuture"
    createdBy := "u1"
    lastModifiedBy := "u1"
    content :=
      { presentLevels := ""
        goals := []
        services := []
        accommodations := []
        modifications := []
        transitionPlanning := none
        collaborativeContent := none }
    teamMembers := ["u1"]
    creationTime := 999 * dayMs }

/-- Fixture for the duplicate-alert and inactive-record scans: an `active`
record whose review date was yesterday. -/
def scOverdueIEP : IEP :=
  { baseIEP with id := "r1", status := IEPStatus.active, annualReviewDate := "yesterday" }

/-- Fixture record owned by `owner` whose team contains `member` (who is not
the owner). -/
def scTeamIEP : IEP :=
  { baseIEP with id := "teamRec", createdBy := "owner", teamMembers := ["member"] }

/-- Profile row for `u1`, used where `getIEPAnalytics` needs a profile. -/
def scProfile : UserProfile :=
  { userId := "u1"
    role := ProfileRole.special_educator
    firstName := "A"
    lastName := "B"
    email := "a@b"
    organization := none
    specialization := none }

/-- The §8 compliance scenario cohort: 10 records, 3 `active` of which 2 are
overdue (review yesterday) and 1 is due in 3 days; the other 7 are
non-active with far-future reviews. -/
def scenarioCohort : List IEP :=
  [ { baseIEP with id := "r1", status := IEPStatus.active, annualReviewDate := "yesterday" },
    { baseIEP with id := "r2", status := IEPStatus.active, annualReviewDate := "yesterday" },
    { baseIEP with id := "r3", status := IEPStatus.active, annualReviewDate := "in3days" },
    { baseIEP with id := "r4" },
    { baseIEP with id := "r5", status := IEPStatus.in_review },
    { baseIEP with id := "r6", status := IEPStatus.approved },
    { baseIEP with id := "r7", status := IEPStatus.expired },
    { baseIEP with id := "r8" },
    { baseIEP with id := "r9" },
    { baseIEP with id := "r10" } ]

/-- A goal with the given id, area and progress, other fields defaulted. -/
def mkGoal (gid area : String) (progress : Int) : Goal :=
  { id := gid
    area := area
    goal := "g"
    objectives := []
    measurableOutcomes := ""
    timeline := ""
    responsibleParty := ""
    progress := progress }

/-- The §8 goal-metric scenario record: 4 goals with progress
`[100, 100, 40, 0]`. -/
def scGoalsIEP : IEP :=
  { baseIEP with
    id := "rg"
    content :=
      { baseIEP.content with
        goals :=
          [ mkGoal "g1" "Reading" 100
          , mkGoal "g2" "Writing" 100
          , mkGoal "g3" "Math" 40
          , mkGoal "g4" "Behavior" 0 ] } }

/-- Fixture notification addressed to `u1`. -/
def scNotif : Notification :=
  { userId := "u1"
    type := NotificationType.system_update
    title := "t"
    message := "m"
    priority := NotifPriority.low
    read := false
    readAt := none
    relatedId := none
    actionUrl := none }

/-- Every alert produced by the stale-goal loop has type `goal_update`. -/
theorem goalAlerts_type_eq (now : Int) (u : String) (pdata : List ProgressData)
    (iep : IEP) (n : Notification) (hn : n ∈ goalAlerts now u pdata iep) :
    n.type = NotificationType.goal_update := by
  unfold goalAlerts at hn
  simp only [List.mem_map] at hn
  obtain ⟨g, _, hEq⟩ := hn
  subst hEq
  rfl

/-- C1: the claim that the user-facing listing returns every record where
the actor is owner OR team member fails on the code: `getUserIEPs` queries
only the `by_created_by` index. At the concrete input below, actor `member`
satisfies the visibility disjunction for `scTeamIEP` — the Record Accessor
filter used by analytics and the scanner returns the record, and the
single-record fetch `getIEP` grants access — yet the listing returns the
empty list. -/
theorem c1_getUserIEPs_omits_team_records :
    (scTeamIEP.createdBy = "member" ∨ "member" ∈ scTeamIEP.teamMembers) ∧
    getUserIEPs (some "member") [scTeamIEP] = [] ∧
    accessibleIEPs "member" [scTeamIEP] = [scTeamIEP] ∧
    getIEP (some "member") [scTeamIEP] scTeamIEP.id = Except.ok scTeamIEP :=
  ⟨by decide, by decide, by decide, by rfl⟩

/-- C8: a record with `status ≠ active` never receives an overdue-review
`compliance_alert` in a scan, regardless of its review date: the overdue
branch requires `status === "active"`, the other review branches emit
`iep_due`, and the stale-goal loop emits only `goal_update`. -/
theorem c8_inactive_never_overdue (pd : String → Option Int) (now : Int)
    (u : String) (pdata : List ProgressData) (iep : IEP)
    (h : iep.status ≠ IEPStatus.active) :
    (scanIEP pd now u pdata iep).countP
      (fun n => decide (n.type = NotificationType.compliance_alert)) = 0 := by
  unfold scanIEP
  rw [List.countP_append]
  have h1 : (reviewAlerts pd now u iep).countP
      (fun n => decide (n.type = NotificationType.compliance_alert)) = 0 := by
    unfold reviewAlerts
    cases hpd : pd iep.annualReviewDate with
    | none => rfl
    | some r =>
      dsimp only
      rw [if_neg (fun hc => h hc.2)]
      split
      · rfl
      · split
        · rfl
        · rfl
  have h2 : (goalAlerts now u pdata iep).countP
      (fun n => decide (n.type = NotificationType.compliance_alert)) = 0 := by
    rw [List.countP_eq_zero]
    intro n hn
    simp [goalAlerts_type_eq now u pdata iep n hn]
  omega

/-- Witness for C8: an `expired` record whose review date is long past
receives no `compliance_alert`. -/
theorem c8_inactive_never_overdue_witness :
    (scanIEP scParse scNow "u1" []
        { baseIEP with status := IEPStatus.expired, annualReviewDate := "yesterday" }).countP
      (fun n => decide (n.type = NotificationType.compliance_alert)) = 0 :=
  c8_inactive_never_overdue scParse scNow "u1" []
    { baseIEP with status := IEPStatus.expired, annualReviewDate := "yesterday" }
    (by decide)

/-- C9: marking another recipient's notification as read fails with the
access-denied error, and since the mutation throws before the patch, the
store is unchanged (in this embedding an `error` result carries no store
update; only an `ok` result does). -/
theorem c9_markRead_other_user_fails (u : String) (db : List Notification)
    (notificationId : Nat) (now : Int) (n : Notification)
    (hget : db[notificationId]? = some n) (hne : n.userId ≠ u) :
    markNotificationRead (some u) db notificationId now =
      Except.error "Notification not found or access denied" := by
  simp only [markNotificationRead, hget]
  rw [if_neg hne]

/-- Witness for C9: `u2` cannot mark `u1`'s notification as read. -/
theorem c9_markRead_other_user_fails_witness :
    markNotificationRead (some "u2") [scNotif] 0 scNow =
      Except.error "Notification not found or access denied" :=
  c9_markRead_other_user_fails "u2" [scNotif] 0 scNow scNotif (by rfl) (by decide)

/-- C10: an authenticated actor with no stored `userProfiles` row gets the
profile-not-found error from the aggregate analytics view before anything is
computed, even though the profile is only tested for existence. -/
theorem c10_analytics_requires_profile (pd : String → Option Int) (u : String)
    (profiles : List UserProfile) (ieps : List IEP) (now : Int)
    (timeRange : Option String) (h : ∀ p ∈ profiles, p.userId ≠ u) :
    getIEPAnalytics pd (some u) profiles ieps now timeRange =
      Except.error "User profile not found" := by
  have hfind : profiles.find? (fun p => decide (p.userId = u)) = none := by
    rw [List.find?_eq_none]
    intro p hp
    simpa using h p hp
  simp only [getIEPAnalytics, hfind]

/-- Witness for C10: an empty profile table fails the analytics query. -/
theorem c10_analytics_requires_profile_witness :
    getIEPAnalytics scParse (some "u1") [] [] scNow none =
      Except.error "User profile not found" :=
  c10_analytics_requires_profile scParse "u1" [] [] scNow none (by simp)

/-- C3: in a single scan pass a record receives at most one review-deadline
alert among {`compliance_alert` overdue, `iep_due` 7-day, `iep_due` 30-day}:
the three rules form an `if`/`else if` chain emitting at most one row, and
the stale-goal alerts all have type `goal_update`. -/
theorem c3_at_most_one_review_alert (pd : String → Option Int) (now : Int)
    (u : String) (pdata : List ProgressData) (iep : IEP) :
    ((scanIEP pd now u pdata iep).filter (fun n =>
      decide (n.type = NotificationType.compliance_alert ∨
        n.type = NotificationType.iep_due))).length ≤ 1 := by
  unfold scanIEP
  rw [List.filter_append, List.length_append]
  have h2 : (goalAlerts now u pdata iep).filter (fun n =>
      decide (n.type = NotificationType.compliance_alert ∨
        n.type = NotificationType.iep_due)) = [] := by
    rw [List.filter_eq_nil_iff]
    intro n hn
    simp [goalAlerts_type_eq now u pdata iep n hn]
  rw [h2]
  have h1 : (reviewAlerts pd now u iep).length ≤ 1 := by
    unfold reviewAlerts
    cases pd iep.annualReviewDate with
    | none => simp
    | some r =>
      dsimp only
      split
      · simp
      · split
        · simp
        · split
          · simp
          · simp
  simpa using le_trans (List.length_filter_le _ _) h1

/-- One `checkComplianceAlerts` run over a singleton cohort containing one
accessible overdue active record appends exactly one `compliance_alert`
referencing it. -/
theorem runScan_overdue_adds_one (pd : String → Option Int)
    (pdata : List ProgressData) (db : List Notification) (now : Int)
    (u : String) (iep : IEP) (r : Int)
    (hpd : pd iep.annualReviewDate = some r) (hr : r < now)
    (hs : iep.status = IEPStatus.active)
    (hacc : iep.createdBy = u ∨ u ∈ iep.teamMembers) :
    complianceAlertCountFor (runComplianceScan pd [iep] pdata db now u) iep.id =
      complianceAlertCountFor db iep.id + 1 := by
  have haccess : accessibleIEPs u [iep] = [iep] := by
    simp [accessibleIEPs, hacc]
  unfold runComplianceScan complianceAlertCountFor
  rw [haccess]
  simp only [List.map_cons, List.map_nil, List.flatten_cons, List.flatten_nil,
    List.append_nil, List.countP_append]
  have hrev : (reviewAlerts pd now u iep).countP (fun n =>
      decide (n.type = NotificationType.compliance_alert ∧
        n.relatedId = some iep.id)) = 1 := by
    unfold reviewAlerts
    rw [hpd]
    dsimp only
    rw [if_pos ⟨hr, hs⟩]
    simp [createNotification]
  have hgoal : (goalAlerts now u pdata iep).countP (fun n =>
      decide (n.type = NotificationType.compliance_alert ∧
        n.relatedId = some iep.id)) = 0 := by
    rw [List.countP_eq_zero]
    intro n hn
    simp [goalAlerts_type_eq now u pdata iep n hn]
  rw [scanIEP, List.countP_append, hrev, hgoal]

/-- C2: the Compliance Scanner is not idempotent: over an unchanged singleton
cohort whose record is overdue (`status = active`, parsed review date in the
past) and accessible to the actor, two successive runs append two
`compliance_alert` rows for that record — alert creation is a plain append
with no existence check against prior alerts. -/
theorem c2_scan_twice_duplicates_alert (pd : String → Option Int)
    (pdata : List ProgressData) (db : List Notification) (now : Int)
    (u : String) (iep : IEP) (r : Int)
    (hpd : pd iep.annualReviewDate = some r) (hr : r < now)
    (hs : iep.status = IEPStatus.active)
    (hacc : iep.createdBy = u ∨ u ∈ iep.teamMembers) :
    ∃ db1 db2,
      checkComplianceAlerts pd [iep] pdata db now (some u) = Except.ok db1 ∧
      checkComplianceAlerts pd [iep] pdata db1 now (some u) = Except.ok db2 ∧
      complianceAlertCountFor db2 iep.id = complianceAlertCountFor db iep.id + 2 := by
  refine ⟨_, _, rfl, rfl, ?_⟩
  rw [runScan_overdue_adds_one pd pdata _ now u iep r hpd hr hs hacc,
    runScan_overdue_adds_one pd pdata db now u iep r hpd hr hs hacc]

/-- Witness for C2: two scans over the fixture overdue record, starting from
an empty store, leave two `compliance_alert` rows for it. -/
theorem c2_scan_twice_duplicates_alert_witness :
    ∃ db1 db2,
      checkComplianceAlerts scParse [scOverdueIEP] [] [] scNow (some "u1") =
        Except.ok db1 ∧
      checkComplianceAlerts scParse [scOverdueIEP] [] db1 scNow (some "u1") =
        Except.ok db2 ∧
      complianceAlertCountFor db2 scOverdueIEP.id =
        complianceAlertCountFor [] scOverdueIEP.id + 2 :=
  c2_scan_twice_duplicates_alert scParse [] [] scNow "u1" scOverdueIEP
    (999 * dayMs) (by decide) (by decide) (by rfl) (Or.inl rfl)

/-- C7: the stale-goal rule: a goal of the record is alerted exactly when no
progress observation for the `(record, goal)` pair was created within the
trailing 30 days, and the alert is a `goal_update` of priority `medium`
referencing the goal's `area` and the record's student; the rule fires once
per stale goal in the same pass and is evaluated independently of the
review-deadline chain (the scan output is their concatenation). -/
theorem c7_stale_goal_alerts (pd : String → Option Int) (now : Int)
    (u : String) (pdata : List ProgressData) (iep : IEP) :
    goalAlerts now u pdata iep =
      (iep.content.goals.filter (fun g =>
          decide (¬ ∃ p ∈ pdata, p.iepId = iep.id ∧ p.goalId = g.id ∧
            now - 30 * dayMs ≤ p.creationTime))).map
        (fun g =>
          createNotification u NotificationType.goal_update
            "Goal Progress Update Needed"
            ("Goal \"" ++ g.area ++ "\" for " ++ iep.studentName ++
              " hasn\x27t been updated in 30 days.")
            NotifPriority.medium (some iep.id) none) ∧
    scanIEP pd now u pdata iep =
      reviewAlerts pd now u iep ++ goalAlerts now u pdata iep := by
  refine ⟨?_, rfl⟩
  unfold goalAlerts
  dsimp only
  congr 1
  apply List.filter_congr
  intro g _
  rw [decide_eq_decide]
  simp only [List.mem_map, List.mem_filter, decide_eq_true_eq]
  constructor
  · intro hno ⟨p, hp, h1, h2, h3⟩
    exact hno ⟨p, ⟨hp, ⟨h1, h3⟩⟩, h2⟩
  · intro hno ⟨p, ⟨hp, ⟨h1, h3⟩⟩, h2⟩
    exact hno ⟨p, hp, h1, h2, h3⟩

/-- The inner goal fold counts: total length, goals with `progress ≥ 100`,
and goals with `0 < progress < 100`, each added to the accumulator. -/
theorem tallyGoal_foldl (gs : List Goal) (acc : GoalTally) :
    gs.foldl tallyGoal acc =
      { totalGoals := acc.totalGoals + gs.length
        completedGoals :=
          acc.completedGoals + gs.countP (fun g => decide (g.progress ≥ 100))
        inProgressGoals :=
          acc.inProgressGoals +
            gs.countP (fun g => decide (0 < g.progress ∧ g.progress < 100)) } := by
  induction gs generalizing acc with
  | nil => simp
  | cons g gs ih =>
    rw [List.foldl_cons, ih]
    simp only [tallyGoal, List.countP_cons, List.length_cons]
    by_cases h1 : g.progress ≥ 100
    · have h2 : ¬(0 < g.progress ∧ g.progress < 100) := by omega
      rw [if_pos h1]
      simp only [GoalTally.mk.injEq]
      refine ⟨?_, ?_, ?_⟩ <;> (try simp [h1, h2]) <;> omega
    · rw [if_neg h1]
      by_cases h2 : g.progress > 0
      · have h3 : 0 < g.progress ∧ g.progress < 100 := ⟨h2, by omega⟩
        rw [if_pos h2]
        simp only [GoalTally.mk.injEq]
        refine ⟨?_, ?_, ?_⟩ <;> (try simp [h1, h3]) <;> omega
      · have h3 : ¬(0 < g.progress ∧ g.progress < 100) := by omega
        rw [if_neg h2]
        simp only [GoalTally.mk.injEq]
        refine ⟨?_, ?_, ?_⟩ <;> first
        | omega
        | (simp [h1, h3]; try omega)

/-- The outer fold over the cohort accumulates the counts of the flattened
goal list. -/
theorem tallyGoals_foldl (cohort : List IEP) (acc : GoalTally) :
    cohort.foldl (fun acc iep => iep.content.goals.foldl tallyGoal acc) acc =
      { totalGoals :=
          acc.totalGoals +
            ((cohort.map (fun iep => iep.content.goals)).flatten).length
        completedGoals :=
          acc.completedGoals +
            ((cohort.map (fun iep => iep.content.goals)).flatten).countP
              (fun g => decide (g.progress ≥ 100))
        inProgressGoals :=
          acc.inProgressGoals +
            ((cohort.map (fun iep => iep.content.goals)).flatten).countP
              (fun g => decide (0 < g.progress ∧ g.progress < 100)) } := by
  induction cohort generalizing acc with
  | nil => simp
  | cons iep rest ih =>
    rw [List.foldl_cons, ih, tallyGoal_foldl]
    simp only [List.map_cons, List.flatten_cons, List.countP_append,
      List.length_append, GoalTally.mk.injEq]
    refine ⟨by omega, by omega, by omega⟩

/-- C6: goal metrics over any filtered cohort: `totalGoals` is the summed
goal-list length, `completedGoals` counts goals with `progress ≥ 100`,
`inProgressGoals` counts goals with `0 < progress < 100`, and the completion
rate is `round(completed / total * 100)` with 0 on an empty goal set; the §8
scenario record with progress `[100, 100, 40, 0]` yields `(4, 2, 1)` and
rate 50. -/
theorem c6_goal_metrics (cohort : List IEP) :
    (tallyGoals cohort).totalGoals =
      ((cohort.map (fun iep => iep.content.goals)).flatten).length ∧
    (tallyGoals cohort).completedGoals =
      ((cohort.map (fun iep => iep.content.goals)).flatten).countP
        (fun g => decide (g.progress ≥ 100)) ∧
    (tallyGoals cohort).inProgressGoals =
      ((cohort.map (fun iep => iep.content.goals)).flatten).countP
        (fun g => decide (0 < g.progress ∧ g.progress < 100)) ∧
    goalCompletionRateOf (tallyGoals cohort) =
      (if (tallyGoals cohort).totalGoals = 0 then 0
       else jsRound100 (tallyGoals cohort).completedGoals
        (tallyGoals cohort).totalGoals) ∧
    tallyGoals [scGoalsIEP] = ⟨4, 2, 1⟩ ∧
    goalCompletionRateOf (tallyGoals [scGoalsIEP]) = 50 := by
  have h := tallyGoals_foldl cohort ⟨0, 0, 0⟩
  refine ⟨?_, ?_, ?_, ?_, by decide, by decide⟩
  · rw [tallyGoals, h]; simp
  · rw [tallyGoals, h]; simp
  · rw [tallyGoals, h]; simp
  · rw [goalCompletionRateOf]
    rcases Nat.eq_zero_or_pos (tallyGoals cohort).totalGoals with h0 | h0
    · rw [if_neg (by omega), if_pos h0]
    · rw [if_pos h0, if_neg (by omega)]

/-- C4: the compliance summary over any filtered cohort: `upcomingReviews`
counts records whose parsed review date lies in `[now, now + 30d]` with no
status requirement, `overdueReviews` counts records with a past review date
AND `status = active`, and `complianceRate` is
`round((total - overdue) / total * 100)`, defined as 100 on an empty cohort;
the §8 scenario (10 records, 2 overdue, 1 due in 3 days) yields
`upcomingReviews = 1`, `overdueReviews = 2`, `complianceRate = 80` through
the full analytics query. -/
theorem c4_compliance_summary (pd : String → Option Int) (now : Int)
    (cohort : List IEP) :
    (complianceOf pd now cohort).upcomingReviews =
      cohort.countP (fun iep =>
        match pd iep.annualReviewDate with
        | none => false
        | some r => decide (now ≤ r ∧ r ≤ now + 30 * dayMs)) ∧
    (complianceOf pd now cohort).overdueReviews =
      cohort.countP (fun iep =>
        match pd iep.annualReviewDate with
        | none => false
        | some r => decide (r < now ∧ iep.status = IEPStatus.active)) ∧
    (complianceOf pd now cohort).complianceRate =
      (if cohort.length = 0 then 100
       else jsRound100 (cohort.length - (complianceOf pd now cohort).overdueReviews)
        cohort.length) ∧
    (complianceOf pd now []).complianceRate = 100 ∧
    ((getIEPAnalytics scParse (some "u1") [scProfile] scenarioCohort scNow
        none).toOption.map
      (fun a => (a.compliance.upcomingReviews, a.compliance.overdueReviews,
        a.compliance.complianceRate))) = some (1, 2, 80) := by
  refine ⟨?_, ?_, ?_, rfl, by decide⟩
  · show upcomingReviewsCount pd now cohort = _
    rw [upcomingReviewsCount, List.countP_eq_length_filter]
    congr 1
    apply List.filter_congr
    intro iep _
    cases pd iep.annualReviewDate with
    | none => rfl
    | some r =>
      dsimp only
      rw [decide_eq_decide]
      constructor
      · rintro ⟨hx, hy⟩
        exact ⟨hy, hx⟩
      · rintro ⟨hx, hy⟩
        exact ⟨hy, hx⟩
  · show overdueReviewsCount pd now cohort = _
    rw [overdueReviewsCount, List.countP_eq_length_filter]
  · show (if cohort.length > 0 then
        jsRound100 (cohort.length - overdueReviewsCount pd now cohort) cohort.length
      else 100) = _
    rcases Nat.eq_zero_or_pos cohort.length with h0 | h0
    · rw [if_neg (by omega), if_pos h0]
    · rw [if_pos h0, if_neg (by omega)]
      rfl

/-- C5: when 6 divides the range length (true of every range label the
source produces: 7, 30, 90 and 365 days in ms are all divisible by 6), the
Trend Bucketizer returns exactly the six buckets over the contiguous,
equal-length, half-open intervals `[now - t + i·(t/6), now - t + (i+1)·(t/6))`,
oldest first; every bucket carries a 1-based index and a count equal to the
number of access-filtered records whose creation time falls in its interval
(so a bucket with no matching records reports count 0 rather than being
omitted). -/
theorem c5_trend_buckets (ieps : List IEP) (u : String) (t now : Int)
    (h6 : (6 : Int) ∣ t) :
    calculateTrends ieps u t now =
      [trendBucket ieps u (now - t) (now - t + t / 6) 0,
       trendBucket ieps u (now - t + t / 6) (now - t + 2 * (t / 6)) 1,
       trendBucket ieps u (now - t + 2 * (t / 6)) (now - t + 3 * (t / 6)) 2,
       trendBucket ieps u (now - t + 3 * (t / 6)) (now - t + 4 * (t / 6)) 3,
       trendBucket ieps u (now - t + 4 * (t / 6)) (now - t + 5 * (t / 6)) 4,
       trendBucket ieps u (now - t + 5 * (t / 6)) now 5] ∧
    (∀ a b : Int, ∀ i : Nat,
      (trendBucket ieps u a b i).period = i + 1 ∧
      (trendBucket ieps u a b i).date = a ∧
      (trendBucket ieps u a b i).iepsCreated =
        ieps.countP (fun iep =>
          decide ((iep.createdBy = u ∨ u ∈ iep.teamMembers) ∧
            a ≤ iep.creationTime ∧ iep.creationTime < b))) := by
  obtain ⟨L, rfl⟩ := h6
  have hdiv : (6 * L) / 6 = L := by
    rw [Int.mul_ediv_cancel_left]
    norm_num
  constructor
  · simp only [calculateTrends, hdiv,
      (by decide : List.range 6 = [0, 1, 2, 3, 4, 5]),
      List.map_cons, List.map_nil, List.cons.injEq, and_true]
    push_cast
    ring_nf
    simp
  · intro a b i
    refine ⟨rfl, rfl, ?_⟩
    show ((ieps.filter (fun iep =>
        decide (a ≤ iep.creationTime ∧ iep.creationTime < b))).filter (fun iep =>
        decide (iep.createdBy = u ∨ u ∈ iep.teamMembers))).length = _
    rw [List.countP_eq_length_filter, List.filter_filter]
    congr 1
    apply List.filter_congr
    intro x _
    exact (Bool.decide_and _ _).symm

/-- Witness for C5: the week range (7 days in ms) is divisible by 6, and the
bucketizer then returns exactly 6 buckets. -/
theorem c5_trend_buckets_witness :
    ((6 : Int) ∣ 7 * dayMs) ∧
    (calculateTrends [] "u1" (7 * dayMs) scNow).length = 6 := by
  have hdvd : (6 : Int) ∣ 7 * dayMs := ⟨100800000, by norm_num [dayMs]⟩
  refine ⟨hdvd, ?_⟩
  rw [(c5_trend_buckets [] "u1" (7 * dayMs) scNow hdvd).1]
  rfl
